import Mathlib

/-!
Shallow embedding of `src/platform_impl/windows/tray.rs` (system-tray icon
support: the tray window's message dispatcher, userdata lifecycle manager,
event translator, tooltip setter and cross-thread destroy protocol).

Machine integers: `HWND`/`LPARAM` are modelled as `Int`; the source's
`l_param as u32` cast is modelled as `emod 2^32`.  Cursor positions are
`i32` pairs; the source converts them to `f64` with `as f64`, which is
exact on the whole `i32` range, so positions are kept as `Int × Int`.
Platform calls (cursor query, shell notify, default window procedure)
are collaborators, not reimplemented: they enter as parameters
(`Option (Int × Int)` for `GetCursorPos`, a `Bool` for `Shell_NotifyIconW`)
or as symbolic results (`LResult.defWindowProc`).
-/

set_option maxRecDepth 8192

namespace WinitTray

/-! ## Message-id constants (values of the `windows_sys` imports used) -/

def WM_CREATE : Nat := 1
def WM_NCCREATE : Nat := 129
def WM_LBUTTONDOWN : Nat := 513
def WM_LBUTTONUP : Nat := 514
def WM_RBUTTONDOWN : Nat := 516
def WM_RBUTTONUP : Nat := 517
def WM_MBUTTONDOWN : Nat := 519
def WM_MBUTTONUP : Nat := 520
def WM_XBUTTONDOWN : Nat := 523
def WM_XBUTTONUP : Nat := 524

/-- Modelled from the spec: `DESTROY_MSG_ID` is defined in the event-loop
module (not under `src/`) as a reserved application-defined message id
obtained from `RegisterWindowMessageW`; such ids lie in `0xC000..0xFFFF`,
disjoint from `WM_USER + 1 = 1025` and from the creation-handshake
messages.  Its concrete value is irrelevant; `0xC000` is used. -/
def DESTROY_MSG_ID : Nat := 49152

/-- Modelled from the spec: the synthetic device identifier `DEVICE_ID`
(tray input has no distinct device) defined in the platform module. -/
def DEVICE_ID : Nat := 0

/-! ## Event vocabulary (`crate::event`, referenced by the translator) -/

/-- Modelled from the spec: `crate::event::MouseButton` (not under `src/`).
The spec names the portable vocabulary Left, Right, Middle, Forward; the
source additionally uses the `Other(u16)` constructor. -/
inductive MouseButton
  | left
  | right
  | middle
  | forward
  | back
  | other (n : Nat)
deriving DecidableEq

inductive ElementState
  | pressed
  | released
deriving DecidableEq

inductive WindowEvent
  | cursorMoved (device_id : Nat) (position : Int × Int)
  | mouseInput (device_id : Nat) (state : ElementState) (button : MouseButton)
deriving DecidableEq

/-- `Event::WindowEvent { window_id, event }` as sent by `WindowData::send_event`. -/
inductive Event
  | windowEvent (window_id : Int) (event : WindowEvent)
deriving DecidableEq

/-! ## Per-window state (`WindowData`, tray.rs lines 157-166) -/

/-- `WindowData`: the `event_loop_runner` sink is represented by the list of
events a dispatch emits (returned alongside results below); the two `Cell`
flags are the data. -/
structure WindowData where
  userdata_removed : Bool
  recurse_depth : Nat
deriving DecidableEq

/-! ## Results -/

/-- The `LRESULT` a dispatcher invocation returns: either a plain value or
the (symbolic) result of `DefWindowProcW(window, msg, wParam, lParam)`. -/
inductive LResult
  | value (v : Int)
  | defWindowProc (window : Int) (msg wParam : Nat) (lParam : Int)
deriving DecidableEq

/-- Output of `public_window_callback_inner`: the resolved `LRESULT`, the
events pushed to the sink in order, and whether `DestroyWindow` ran. -/
structure InnerOut where
  result : LResult
  events : List Event
  destroyCalled : Bool
deriving DecidableEq

/-! ## Event translator (`public_window_callback_inner`, tray.rs 340-438) -/

/-- The guard of the `1025` match arm (tray.rs 350-357). -/
def isTrayButtonMsg (x : Nat) : Bool :=
  x == WM_LBUTTONUP || x == WM_RBUTTONUP || x == WM_MBUTTONUP || x == WM_XBUTTONUP ||
  x == WM_LBUTTONDOWN || x == WM_RBUTTONDOWN || x == WM_MBUTTONDOWN || x == WM_XBUTTONDOWN

/-- The `(button, state)` match (tray.rs 359-393); `none` is the
`unreachable!` arm, impossible under the guard. -/
def trayButton (x : Nat) : Option (MouseButton × ElementState) :=
  if x = WM_LBUTTONUP then some (MouseButton.left, ElementState.released)
  else if x = WM_RBUTTONUP then some (MouseButton.right, ElementState.released)
  else if x = WM_MBUTTONUP then some (MouseButton.middle, ElementState.released)
  else if x = WM_XBUTTONUP then some (MouseButton.other 0, ElementState.released)
  else if x = WM_LBUTTONDOWN then some (MouseButton.left, ElementState.pressed)
  else if x = WM_RBUTTONDOWN then some (MouseButton.right, ElementState.pressed)
  else if x = WM_MBUTTONDOWN then some (MouseButton.middle, ElementState.pressed)
  else if x = WM_XBUTTONDOWN then some (MouseButton.other 0, ElementState.pressed)
  else none

/-- `public_window_callback_inner` (tray.rs 340-438).  `cursor` models the
`GetCursorPos` collaborator (`none` = the query returned 0).  The overall
`none` result models a panic (only the `unreachable!` arm).  Note the inner
callback never writes `userdata_removed` or `recurse_depth`; it only
reads the sink, so `WindowData` is not an argument. -/
def public_window_callback_inner (window : Int) (msg wParam : Nat) (lParam : Int)
    (cursor : Option (Int × Int)) : Option InnerOut :=
  if msg == 1025 && isTrayButtonMsg (lParam.emod 4294967296).toNat then
    match trayButton (lParam.emod 4294967296).toNat with
    | none => none
    | some (button, state) =>
      match cursor with
      | none => some ⟨LResult.value 1, [], false⟩
      | some (px, py) =>
        some ⟨LResult.value 0,
          [Event.windowEvent window (WindowEvent.cursorMoved DEVICE_ID (px, py)),
           Event.windowEvent window (WindowEvent.mouseInput DEVICE_ID state button)],
          false⟩
  else if msg = DESTROY_MSG_ID then
    some ⟨LResult.value 0, [], true⟩
  else
    some ⟨LResult.defWindowProc window msg wParam lParam, [], false⟩

/-! ## Creation handshake (`InitData::on_nccreate`, tray.rs 137-155) -/

/-- `InitData::on_nccreate`: builds `WindowData` under the runner's
panic-catching boundary.  `constructPanic` models the construction closure:
`some payload` means it panicked with that payload (captured by
`catch_unwind`, modelled from the spec — the runner lives outside `src/`),
`none` means it succeeded, yielding fresh flags `(false, 0)`. -/
def on_nccreate (constructPanic : Option Nat) : Option WindowData :=
  match constructPanic with
  | some _ => none
  | none => some ⟨false, 0⟩

/-! ## Message dispatcher (`window_proc`, tray.rs 282-338) -/

/-- Output of one (non-nested) `window_proc` invocation: the `LRESULT`, the
`GWL_USERDATA` slot content afterwards, the events emitted, whether
`DestroyWindow` ran, whether the `Box::from_raw` drop at tray.rs 333-335
ran, and the panic payload held by the runner afterwards (modelled from
the spec for `catch_unwind` / `take_panic_error`). -/
structure ProcOut where
  result : LResult
  slot : Option WindowData
  events : List Event
  destroyCalled : Bool
  freed : Bool
  runnerPanic : Option Nat
deriving DecidableEq

/-- `window_proc` (tray.rs 282-338) for a single, non-reentrant invocation;
`slot` is the `GWL_USERDATA` content (`none` = the 0 sentinel).  The match
arms mirror the source's `(userdata, msg)` match in order.  In the
attached-state arm, `userdata_removed` is read back unchanged after the
inner callback — no statement in the file writes it (nested invocations
are covered by the trace model below). -/
def window_proc (slot : Option WindowData) (window : Int) (msg wParam : Nat) (lParam : Int)
    (cursor : Option (Int × Int)) (constructPanic : Option Nat) : Option ProcOut :=
  match slot with
  | none =>
    if msg = WM_NCCREATE then
      match on_nccreate constructPanic with
      | some wd =>
        some ⟨LResult.defWindowProc window msg wParam lParam, some wd, [], false, false,
          constructPanic⟩
      | none => some ⟨LResult.value (-1), none, [], false, false, constructPanic⟩
    else if msg = WM_CREATE then
      some ⟨LResult.value (-1), none, [], false, false, none⟩
    else
      some ⟨LResult.defWindowProc window msg wParam lParam, none, [], false, false, none⟩
  | some wd =>
    if msg = WM_CREATE then
      some ⟨LResult.defWindowProc window msg wParam lParam, some wd, [], false, false, none⟩
    else
      match public_window_callback_inner window msg wParam lParam cursor with
      | none => none
      | some io =>
        some ⟨io.result, some ⟨wd.userdata_removed, wd.recurse_depth + 1 - 1⟩, io.events,
          io.destroyCalled, wd.userdata_removed && (wd.recurse_depth + 1 - 1 == 0), none⟩

/-! ## Reentrant dispatch traces (unfolding of tray.rs 318-335)

A well-nested sequence of dispatcher invocations on one live window is a
list of `enter`/`exit` steps: `enter` is the `recurse_depth` increment at
tray.rs 321 together with the inner callback's own effects, `exit` is the
read-back/decrement/conditional-free at tray.rs 326-335.  A nested
reentrant invocation appears as an inner `enter`/`exit` pair between its
parent's two steps.  The window identity does not affect the flags and is
fixed to 0 in the steps. -/

structure DState where
  removed : Bool
  depth : Nat
  freedCount : Nat
  destroyCalls : Nat
deriving DecidableEq

inductive TraceStep
  | enter (msg wParam : Nat) (lParam : Int) (cursor : Option (Int × Int))
  | leave
deriving DecidableEq

def dispatchStep (s : DState) : TraceStep → DState
  | TraceStep.enter msg wParam lParam cursor =>
    match public_window_callback_inner 0 msg wParam lParam cursor with
    | none => { s with depth := s.depth + 1 }
    | some io =>
      { s with
        depth := s.depth + 1,
        destroyCalls := s.destroyCalls + (if io.destroyCalled then 1 else 0) }
  | TraceStep.leave =>
    { s with
      depth := s.depth - 1,
      freedCount := s.freedCount + (if s.removed && s.depth - 1 == 0 then 1 else 0) }

def dispatchTrace (s : DState) : List TraceStep → DState
  | [] => s
  | st :: tr => dispatchTrace (dispatchStep s st) tr

/-! ## Tray drop (`impl Drop for Tray`, tray.rs 113-121) -/

inductive DropAction
  | postMessage (hwnd : Int) (msg wParam : Nat) (lParam : Int)
  | destroyWindow (hwnd : Int)
deriving DecidableEq

/-- `Drop for Tray`: the list of platform calls the drop performs, in
order — a single `PostMessageW(hwnd, DESTROY_MSG_ID, 0, 0)`. -/
def trayDrop (hwnd : Int) : List DropAction :=
  [DropAction.postMessage hwnd DESTROY_MSG_ID 0 0]

/-! ## Tooltip (`Tray::set_tooltip`, tray.rs 75-107) -/

inductive TrayError
  | inputValidation
  | osError
deriving DecidableEq

/-- The copy of the encoded tooltip into the zeroed 128-element `szTip`
buffer, `nid.szTip[..len].copy_from_slice(&wide)` (tray.rs 99; the x86
branch at 91-96 is the same computation).  `none` models the slice-index
panic, which occurs exactly when the range end exceeds the buffer. -/
def copyIntoTip (wide : List Nat) : Option (List Nat) :=
  if wide.length ≤ 128 then some (wide ++ List.replicate (128 - wide.length) 0) else none

/-- `Tray::set_tooltip` over the already-encoded tooltip (encoding is an
external collaborator).  `prior` is the tooltip the shell currently holds,
`shellOk` models the `Shell_NotifyIconW(NIM_MODIFY, ..)` call.  Returns
`none` on panic, otherwise the call's result together with the shell-held
tooltip afterwards. -/
def set_tooltip (prior wide_tooltip : List Nat) (shellOk : Bool) :
    Option (Except TrayError Unit × List Nat) :=
  if wide_tooltip.length > 128 then
    some (Except.error TrayError.inputValidation, prior)
  else
    match copyIntoTip wide_tooltip with
    | none => none
    | some tip =>
      if shellOk then some (Except.ok (), tip)
      else some (Except.error TrayError.osError, prior)

/-! ## Window registrar (`init_window`, tray.rs 168-280) -/

/-- Modelled from the spec: the platform's class registry.
`RegisterClassExW` fails if the class name is already registered, leaving
the registry unchanged; otherwise it adds the class.  Class names are
abstracted to `Nat`. -/
def registerClassExW (registry : List Nat) (name : Nat) : Bool × List Nat :=
  if name ∈ registry then (false, registry) else (true, name :: registry)

/-- The `"my_window"` class name. -/
def classNameId : Nat := 0

inductive InitOutcome
  | panicked (payload : Nat)
  | osErr
  | ok
deriving DecidableEq

/-- `init_window` (tray.rs 168-280), focused on the registration step and
the creation handshake.  The `RegisterClassExW` result is discarded, as at
tray.rs 195.  `CreateWindowExW` delivers `WM_NCCREATE` to `window_proc`; a
`-1` return from the handler makes the creation call return a null handle.
After the call, `take_panic_error` / `resume_unwind` re-raise any panic
the runner captured (tray.rs 227-230).  `restOk` abstracts the remaining
platform calls (icon load, shell add, menu setup). -/
def init_window (registry : List Nat) (constructPanic : Option Nat)
    (hwndOnSuccess : Int) (restOk : Bool) : InitOutcome × List Nat :=
  let registry2 := (registerClassExW registry classNameId).2
  let proc := window_proc none hwndOnSuccess WM_NCCREATE 0 0 none constructPanic
  let hwnd : Int :=
    match proc with
    | some out =>
      match out.result with
      | LResult.value _ => 0
      | LResult.defWindowProc _ _ _ _ => hwndOnSuccess
    | none => 0
  let panic :=
    match proc with
    | some out => out.runnerPanic
    | none => none
  let outcome :=
    match panic with
    | some payload => InitOutcome.panicked payload
    | none =>
      if hwnd = 0 then InitOutcome.osErr
      else if restOk then InitOutcome.ok
      else InitOutcome.osErr
  (outcome, registry2)

/-- Iterated tray creation on one process: thread the class registry
through `n` successive `init_window` calls, starting from the fresh
(empty) registry. -/
def initN (cp : Option Nat) (hw : Int) (r : Bool) : Nat → List Nat
  | 0 => []
  | n + 1 => (init_window (initN cp hw r n) cp hw r).2

/-! ## Helper lemmas -/

/-- The match guard and the `(button, state)` match recognize the same raw
codes: the `unreachable!` arm is indeed unreachable under the guard. -/
theorem isTrayButtonMsg_eq_isSome (x : Nat) :
    isTrayButtonMsg x = (trayButton x).isSome := by
  by_cases h1 : x = WM_LBUTTONUP
  · subst h1; decide
  by_cases h2 : x = WM_RBUTTONUP
  · subst h2; decide
  by_cases h3 : x = WM_MBUTTONUP
  · subst h3; decide
  by_cases h4 : x = WM_XBUTTONUP
  · subst h4; decide
  by_cases h5 : x = WM_LBUTTONDOWN
  · subst h5; decide
  by_cases h6 : x = WM_RBUTTONDOWN
  · subst h6; decide
  by_cases h7 : x = WM_MBUTTONDOWN
  · subst h7; decide
  by_cases h8 : x = WM_XBUTTONDOWN
  · subst h8; decide
  simp [isTrayButtonMsg, trayButton, h1, h2, h3, h4, h5, h6, h7, h8]

/-- The inner callback runs `DestroyWindow` only when it is processing the
reserved destroy message. -/
theorem inner_destroyCalled_imp (window : Int) (msg wParam : Nat) (lParam : Int)
    (cursor : Option (Int × Int)) (io : InnerOut)
    (h : public_window_callback_inner window msg wParam lParam cursor = some io)
    (hd : io.destroyCalled = true) : msg = DESTROY_MSG_ID := by
  by_cases hdm : msg = DESTROY_MSG_ID
  · exact hdm
  exfalso
  unfold public_window_callback_inner at h
  by_cases hb : (msg == 1025 && isTrayButtonMsg (lParam.emod 4294967296).toNat) = true
  · rw [if_pos hb] at h
    cases htb : trayButton (lParam.emod 4294967296).toNat with
    | none => rw [htb] at h; cases h
    | some p =>
      obtain ⟨b, st⟩ := p
      rw [htb] at h
      cases cursor with
      | none => cases h; simp at hd
      | some q =>
        obtain ⟨px, py⟩ := q
        cases h; simp at hd
  · rw [if_neg hb, if_neg hdm] at h
    cases h; simp at hd

/-- No step of a dispatch trace ever writes `userdata_removed`, so from a
live state the flag stays `false` and the conditional free never fires. -/
theorem dispatchTrace_removed_false (tr : List TraceStep) (s : DState)
    (h : s.removed = false) :
    (dispatchTrace s tr).removed = false ∧ (dispatchTrace s tr).freedCount = s.freedCount := by
  induction tr generalizing s with
  | nil => exact ⟨h, rfl⟩
  | cons st tr ih =>
    have hst : dispatchTrace s (st :: tr) = dispatchTrace (dispatchStep s st) tr := rfl
    rw [hst]
    have hs : (dispatchStep s st).removed = false ∧
        (dispatchStep s st).freedCount = s.freedCount := by
      cases st with
      | enter msg wParam lParam cursor =>
        simp only [dispatchStep]
        cases public_window_callback_inner 0 msg wParam lParam cursor <;> simp [h]
      | leave => simp [dispatchStep, h]
    obtain ⟨h1, h2⟩ := ih (dispatchStep s st) hs.1
    exact ⟨h1, h2.trans hs.2⟩

/-- After any positive number of tray creations the class registry holds
exactly the one class name: the first call adds it and every later
registration attempt fails without changing the registry. -/
theorem initN_succ_eq (cp : Option Nat) (hw : Int) (r : Bool) (n : Nat) :
    initN cp hw r (n + 1) = [classNameId] := by
  induction n with
  | zero =>
    show (init_window [] cp hw r).2 = [classNameId]
    rfl
  | succ n ih =>
    show (init_window (initN cp hw r (n + 1)) cp hw r).2 = [classNameId]
    rw [ih]
    rfl

/-! ## Claim theorems -/

/-- C1 (evidence of the code bug): processing the dedicated
application-defined destroy message issues the native window-destroy call,
but Detach-and-free never happens: no statement in the dispatcher ever
sets `userdata_removed`, so for EVERY sequence of dispatcher invocations
on a live window — nested reentrant ones included — the removed flag stays
`false` and `PerWindowState` is freed zero times, not exactly once.  The
concrete destroy dispatch ends with one `DestroyWindow` call, the flag
still `false`, and no free. -/
theorem C1_destroy_message_never_frees :
    (∀ tr : List TraceStep,
      (dispatchTrace ⟨false, 0, 0, 0⟩ tr).removed = false ∧
      (dispatchTrace ⟨false, 0, 0, 0⟩ tr).freedCount = 0) ∧
    dispatchTrace ⟨false, 0, 0, 0⟩
      [TraceStep.enter DESTROY_MSG_ID 0 0 none, TraceStep.leave] = ⟨false, 0, 0, 1⟩ :=
  ⟨fun tr => dispatchTrace_removed_false tr ⟨false, 0, 0, 0⟩ rfl, by decide⟩

/-- C2: dropping the `Tray` handle only posts the reserved destroy message
to the window's queue (a single fire-and-forget `PostMessageW`, no native
destroy call on the requesting thread), and `DestroyWindow` only ever runs
inside a dispatcher invocation that is processing that reserved message
with per-window state attached. -/
theorem C2_drop_posts_only (hwnd : Int) :
    trayDrop hwnd = [DropAction.postMessage hwnd DESTROY_MSG_ID 0 0] ∧
    (∀ h2 : Int, DropAction.destroyWindow h2 ∉ trayDrop hwnd) ∧
    (∀ (slot : Option WindowData) (window : Int) (msg wParam : Nat) (lParam : Int)
        (cursor : Option (Int × Int)) (cp : Option Nat) (out : ProcOut),
      window_proc slot window msg wParam lParam cursor cp = some out →
      out.destroyCalled = true → msg = DESTROY_MSG_ID ∧ slot.isSome = true) := by
  refine ⟨rfl, by simp [trayDrop], ?_⟩
  intro slot window msg wParam lParam cursor cp out hp hd
  cases slot with
  | none =>
    exfalso
    simp only [window_proc] at hp
    by_cases h1 : msg = WM_NCCREATE
    · rw [if_pos h1] at hp
      cases hnc : on_nccreate cp with
      | none => rw [hnc] at hp; cases hp; simp at hd
      | some wd => rw [hnc] at hp; cases hp; simp at hd
    · rw [if_neg h1] at hp
      by_cases h2 : msg = WM_CREATE
      · rw [if_pos h2] at hp; cases hp; simp at hd
      · rw [if_neg h2] at hp; cases hp; simp at hd
  | some wd =>
    simp only [window_proc] at hp
    by_cases h1 : msg = WM_CREATE
    · rw [if_pos h1] at hp; cases hp; simp at hd
    · rw [if_neg h1] at hp
      cases hio : public_window_callback_inner window msg wParam lParam cursor with
      | none => rw [hio] at hp; cases hp
      | some io =>
        rw [hio] at hp
        cases hp
        refine ⟨inner_destroyCalled_imp window msg wParam lParam cursor io hio ?_, rfl⟩
        simpa using hd

/-- C2 witness: dropping handle 3 performs exactly the one post, and a
dispatcher invocation that did run `DestroyWindow` was processing the
reserved destroy message with state attached. -/
theorem C2_drop_posts_only_witness :
    trayDrop 3 = [DropAction.postMessage 3 DESTROY_MSG_ID 0 0] ∧
    (DESTROY_MSG_ID = DESTROY_MSG_ID ∧
      (some (⟨false, 0⟩ : WindowData)).isSome = true) :=
  ⟨(C2_drop_posts_only 3).1,
   (C2_drop_posts_only 3).2.2 (some ⟨false, 0⟩) 0 DESTROY_MSG_ID 0 0 none none
     ⟨LResult.value 0, some ⟨false, 0⟩, [], true, false, none⟩ rfl rfl⟩

/-- C3 counterexample: a wide encoding of exactly 128 wide units is NOT
rejected — the guard at tray.rs 77 is `len > 128` — so `set_tooltip`
succeeds on it instead of failing with InputValidation. -/
theorem C3_counterexample :
    set_tooltip [] (List.replicate 128 97) true
      = some (Except.ok (), List.replicate 128 97) ∧
    some ((Except.ok () : Except TrayError Unit), List.replicate 128 97)
      ≠ some ((Except.error TrayError.inputValidation : Except TrayError Unit),
              ([] : List Nat)) := by
  refine ⟨rfl, fun hc => ?_⟩
  rw [Option.some.injEq, Prod.mk.injEq] at hc
  exact absurd hc.1 (fun he => by cases he)

/-- C3 amended: a wide encoding of MORE than 128 wide units fails with
InputValidation before any platform call and the prior tooltip is
retained; an encoding of at most 128 wide units — 128 itself included, and
in particular 127 — passes the guard and succeeds when the platform call
succeeds. -/
theorem C3_tooltip_boundary (prior wide : List Nat) (shellOk : Bool) :
    (wide.length > 128 →
      set_tooltip prior wide shellOk
        = some (Except.error TrayError.inputValidation, prior)) ∧
    (wide.length ≤ 128 → shellOk = true →
      set_tooltip prior wide shellOk
        = some (Except.ok (), wide ++ List.replicate (128 - wide.length) 0)) := by
  constructor
  · intro hl
    unfold set_tooltip
    rw [if_pos hl]
  · intro hl hs
    subst hs
    unfold set_tooltip
    rw [if_neg (Nat.not_lt.mpr hl)]
    unfold copyIntoTip
    rw [if_pos hl]
    rfl

/-- C3 witness: a 129-unit encoding is rejected with the prior tooltip
retained; a 127-unit encoding succeeds. -/
theorem C3_tooltip_boundary_witness :
    set_tooltip [] (List.replicate 129 97) true
      = some (Except.error TrayError.inputValidation, []) ∧
    set_tooltip [] (List.replicate 127 97) true
      = some (Except.ok (), List.replicate 127 97 ++ List.replicate 1 0) :=
  ⟨(C3_tooltip_boundary [] (List.replicate 129 97) true).1 (by simp),
   (C3_tooltip_boundary [] (List.replicate 127 97) true).2 (by simp) rfl⟩

/-- C10: for every tooltip encoding that passes the length guard (at most
128 wide units), the copy into the fixed 128-element `szTip` buffer is in
bounds — it cannot panic and yields a full 128-element buffer — and the
guard is the only pre-platform-call rejection: with the guard passed the
call either succeeds or fails with the platform's own error, never with
InputValidation. -/
theorem C10_copy_in_bounds (prior wide : List Nat) (h : wide.length ≤ 128) :
    copyIntoTip wide = some (wide ++ List.replicate (128 - wide.length) 0) ∧
    (wide ++ List.replicate (128 - wide.length) 0).length = 128 ∧
    set_tooltip prior wide true
      = some (Except.ok (), wide ++ List.replicate (128 - wide.length) 0) ∧
    set_tooltip prior wide false = some (Except.error TrayError.osError, prior) := by
  refine ⟨?_, ?_, ?_, ?_⟩
  · unfold copyIntoTip
    rw [if_pos h]
  · simp only [List.length_append, List.length_replicate]
    omega
  · unfold set_tooltip
    rw [if_neg (Nat.not_lt.mpr h)]
    unfold copyIntoTip
    rw [if_pos h]
    rfl
  · unfold set_tooltip
    rw [if_neg (Nat.not_lt.mpr h)]
    unfold copyIntoTip
    rw [if_pos h]
    rfl

/-- C10 witness at the boundary length 128. -/
theorem C10_copy_in_bounds_witness :
    copyIntoTip (List.replicate 128 7)
      = some (List.replicate 128 7
          ++ List.replicate (128 - (List.replicate 128 7).length) 0) ∧
    (List.replicate 128 7
      ++ List.replicate (128 - (List.replicate 128 7).length) 0).length = 128 ∧
    set_tooltip [] (List.replicate 128 7) true
      = some (Except.ok (), List.replicate 128 7
          ++ List.replicate (128 - (List.replicate 128 7).length) 0) ∧
    set_tooltip [] (List.replicate 128 7) false
      = some (Except.error TrayError.osError, []) :=
  C10_copy_in_bounds [] (List.replicate 128 7) (by simp)

/-- C4: a recognized button message handled with attached state emits
exactly two events in order — first the cursor-moved event at the queried
cursor position, then the mouse-input event — both tagged with the same
window identity and the synthetic device identifier, both part of the same
dispatcher invocation's output (pushed synchronously before it returns),
with the message consumed (`LRESULT` 0) and the state left attached. -/
theorem C4_button_two_events (d : Nat) (window : Int) (wParam : Nat) (lParam : Int)
    (px py : Int) (b : MouseButton) (st : ElementState)
    (h : trayButton (lParam.emod 4294967296).toNat = some (b, st)) :
    window_proc (some ⟨false, d⟩) window 1025 wParam lParam (some (px, py)) none
      = some ⟨LResult.value 0, some ⟨false, d⟩,
          [Event.windowEvent window (WindowEvent.cursorMoved DEVICE_ID (px, py)),
           Event.windowEvent window (WindowEvent.mouseInput DEVICE_ID st b)],
          false, false, none⟩ := by
  have hb : isTrayButtonMsg (lParam.emod 4294967296).toNat = true := by
    rw [isTrayButtonMsg_eq_isSome, h]
    rfl
  simp [window_proc, public_window_callback_inner, WM_CREATE, hb, h]

/-- C4 witness: a left-button-up message at cursor position (100, 50)
emits the cursor-moved event at (100, 50) and then the released
mouse-input event, both for window 5 with the synthetic device. -/
theorem C4_button_two_events_witness :
    window_proc (some ⟨false, 0⟩) 5 1025 0 514 (some (100, 50)) none
      = some ⟨LResult.value 0, some ⟨false, 0⟩,
          [Event.windowEvent 5 (WindowEvent.cursorMoved DEVICE_ID (100, 50)),
           Event.windowEvent 5 (WindowEvent.mouseInput DEVICE_ID ElementState.released
             MouseButton.left)],
          false, false, none⟩ :=
  C4_button_two_events 0 5 0 514 100 50 MouseButton.left ElementState.released (by decide)

/-- C5: for a recognized button message whose screen cursor-position query
fails, the dispatcher returns the handled result 1 directly, emits zero
events, runs no destroy, frees nothing, and surfaces no error; the
translator is stateless, so the same message dispatched next with a
successful query emits its two events normally. -/
theorem C5_cursor_query_failure (d : Nat) (window : Int) (wParam : Nat) (lParam : Int)
    (h : isTrayButtonMsg (lParam.emod 4294967296).toNat = true) :
    window_proc (some ⟨false, d⟩) window 1025 wParam lParam none none
      = some ⟨LResult.value 1, some ⟨false, d⟩, [], false, false, none⟩ ∧
    ∀ px py : Int, ∃ out : ProcOut,
      window_proc (some ⟨false, d⟩) window 1025 wParam lParam (some (px, py)) none
        = some out ∧ out.events.length = 2 := by
  have hsome : (trayButton (lParam.emod 4294967296).toNat).isSome = true := by
    rw [← isTrayButtonMsg_eq_isSome]
    exact h
  obtain ⟨p, hp⟩ := Option.isSome_iff_exists.mp hsome
  obtain ⟨b, st⟩ := p
  constructor
  · simp [window_proc, public_window_callback_inner, WM_CREATE, h, hp]
  · intro px py
    exact ⟨⟨LResult.value 0, some ⟨false, d⟩,
      [Event.windowEvent window (WindowEvent.cursorMoved DEVICE_ID (px, py)),
       Event.windowEvent window (WindowEvent.mouseInput DEVICE_ID st b)],
      false, false, none⟩,
      by simp [window_proc, public_window_callback_inner, WM_CREATE, h, hp], rfl⟩

/-- C5 witness: a left-button-down dispatch with a failed cursor query
returns 1 and emits nothing. -/
theorem C5_cursor_query_failure_witness :
    window_proc (some ⟨false, 0⟩) 0 1025 0 513 none none
      = some ⟨LResult.value 1, some ⟨false, 0⟩, [], false, false, none⟩ :=
  (C5_cursor_query_failure 0 0 0 513 (by decide)).1

/-- C6 counterexample: a `WM_CREATE` message arriving while the userdata
slot holds the unset sentinel is NOT forwarded to default platform
handling — the dispatcher returns -1 (aborting creation) instead of the
`DefWindowProcW` result. -/
theorem C6_counterexample :
    window_proc none 7 WM_CREATE 3 4 none none
      = some ⟨LResult.value (-1), none, [], false, false, none⟩ ∧
    LResult.value (-1) ≠ LResult.defWindowProc 7 WM_CREATE 3 4 := by decide

/-- C6 amended: every message OTHER than the two creation-handshake
messages (`WM_NCCREATE` and `WM_CREATE`) arriving with the unset sentinel
is forwarded unmodified (same message and parameters) to the platform's
default handling, with no translation, no events, no destroy, no free and
the slot left unset; `WM_NCCREATE` instead runs the creation handshake,
and `WM_CREATE` with no state returns -1, aborting creation. -/
theorem C6_unattached_forwards (window : Int) (msg wParam : Nat) (lParam : Int)
    (cursor : Option (Int × Int)) (cp : Option Nat)
    (h1 : msg ≠ WM_NCCREATE) (h2 : msg ≠ WM_CREATE) :
    window_proc none window msg wParam lParam cursor cp
      = some ⟨LResult.defWindowProc window msg wParam lParam, none, [], false, false,
          none⟩ := by
  simp only [window_proc]
  rw [if_neg h1, if_neg h2]

/-- C6 witness: even a recognized button message (1025 with a button
code) is forwarded unmodified when no state is attached. -/
theorem C6_unattached_forwards_witness :
    window_proc none 2 1025 6 514 none none
      = some ⟨LResult.defWindowProc 2 1025 6 514, none, [], false, false, none⟩ :=
  C6_unattached_forwards 2 1025 6 514 none none (by decide) (by decide)

/-- C7: if `PerWindowState` construction during the creation handshake
panics, the panic is captured at the callback boundary: `on_nccreate`
signals failure, no state pointer is stored, the creation call returns the
null handle (the window is not realized), and `init_window` re-raises the
same captured payload to the original caller after the creation call
returns, whatever the remaining platform calls would have done. -/
theorem C7_construction_panic (registry : List Nat) (payload : Nat)
    (hwnd : Int) (restOk : Bool) :
    (init_window registry (some payload) hwnd restOk).1 = InitOutcome.panicked payload ∧
    window_proc none hwnd WM_NCCREATE 0 0 none (some payload)
      = some ⟨LResult.value (-1), none, [], false, false, some payload⟩ :=
  ⟨rfl, rfl⟩

/-- C8: the window class is registered exactly once per process, lazily on
first use: after zero tray creations nothing is registered, after any
positive number of creations the class name occurs exactly once in the
registry, and a failed re-registration attempt is not fatal — the outcome
of `init_window` is independent of the prior registry contents, because
the `RegisterClassExW` result is discarded. -/
theorem C8_register_once (cp : Option Nat) (hw : Int) (r : Bool) (n : Nat) (hn : 1 ≤ n) :
    (initN cp hw r n).count classNameId = 1 ∧
    (initN cp hw r 0).count classNameId = 0 ∧
    ∀ registry : List Nat,
      (init_window registry cp hw r).1 = (init_window [] cp hw r).1 := by
  refine ⟨?_, rfl, fun registry => rfl⟩
  obtain ⟨m, rfl⟩ : ∃ m, n = m + 1 := ⟨n - 1, (Nat.succ_pred_eq_of_pos hn).symm⟩
  rw [initN_succ_eq]
  rfl

/-- C8 witness: after two creations the class is registered exactly once. -/
theorem C8_register_once_witness :
    (initN none 1 true 2).count classNameId = 1 :=
  (C8_register_once none 1 true 2 (by decide)).1

/-- C9 counterexample: a recognized X-button ("forward" button) down
message is translated with button `Other 0`, not `Forward`: the emitted
mouse-input event carries `MouseButton.other 0`, which differs from
`MouseButton.forward`. -/
theorem C9_counterexample :
    public_window_callback_inner 5 1025 0 523 (some (7, 9))
      = some ⟨LResult.value 0,
          [Event.windowEvent 5 (WindowEvent.cursorMoved DEVICE_ID (7, 9)),
           Event.windowEvent 5 (WindowEvent.mouseInput DEVICE_ID ElementState.pressed
             (MouseButton.other 0))], false⟩ ∧
    MouseButton.other 0 ≠ MouseButton.forward := by decide

/-- C9 amended: the translator classifies X-button down and up messages as
`MouseButton.other 0` (pressed and released respectively), a member of the
`Other` family rather than the Forward member of the portable
vocabulary. -/
theorem C9_xbutton_classified_other :
    trayButton WM_XBUTTONDOWN = some (MouseButton.other 0, ElementState.pressed) ∧
    trayButton WM_XBUTTONUP = some (MouseButton.other 0, ElementState.released) ∧
    MouseButton.other 0 ≠ MouseButton.forward := by decide

end WinitTray
